import Mathlib

/-!
Shallow embedding of the per-slot scheduling and reconciliation engine of
the glm-tray repository (src/src-tauri/src/scheduler.rs, with data types
from src/src-tauri/src/models.rs).

Modelling conventions:
* Rust `u32` / `u64` counters are `Nat` with explicit saturation at
  `2^32 - 1` / `2^64 - 1` where the source uses `saturating_add` /
  `saturating_mul`.
* `Instant` (the monotonic clock) is a `Nat` of elapsed milliseconds;
  `Instant::now()` becomes an explicit `now_mono` parameter.
* `Local::now().timestamp_millis()` becomes an explicit `now_ms : Int`
  parameter; the current local `HH:MM` string and `YYYY-MM-DD` date string
  become explicit `hm_str` / `date_str` parameters.
* Fallible remote calls (`fetch_quota`, `send_wake_request`) become
  `Except String` values passed in as oracles; a result flag records
  whether the model consulted the fetch oracle (i.e. whether the source
  would have performed a network call).
-/

namespace GlmTray

def u32_max : Nat := 2 ^ 32 - 1

def u64_max : Nat := 2 ^ 64 - 1

/-- Rust `u32::saturating_add(1)` on a counter. -/
def satSucc32 (n : Nat) : Nat := min (n + 1) u32_max

/-- Rust `u64::saturating_mul`. -/
def satMul64 (a b : Nat) : Nat := min (a * b) u64_max

/-- models.rs `QuotaSnapshot`. -/
structure QuotaSnapshot where
  percentage : Nat
  timer_active : Bool
  next_reset_hms : Option String
  next_reset_epoch_ms : Option Int
deriving DecidableEq

/-- models.rs `KeySlotConfig` (fields the scheduler reads). -/
structure KeySlotConfig where
  slot : Nat
  name : String
  enabled : Bool
  api_key : String
  schedule_interval_enabled : Bool
  schedule_times_enabled : Bool
  schedule_after_reset_enabled : Bool
  schedule_interval_minutes : Nat
  schedule_times : List String
  schedule_after_reset_minutes : Nat
  poll_interval_minutes : Nat
  logging : Bool
deriving DecidableEq

/-- models.rs `AppConfig` (fields the scheduler reads). -/
structure AppConfig where
  slots : List KeySlotConfig
  wake_quota_retry_window_minutes : Nat
  max_consecutive_errors : Nat
  quota_poll_backoff_cap_minutes : Nat
deriving DecidableEq

/-- scheduler.rs `SchedulerPolicy`. -/
structure SchedulerPolicy where
  max_consecutive_errors : Nat
  quota_backoff_cap_minutes : Nat
  wake_quota_retry_window_minutes : Nat
deriving DecidableEq

/-- scheduler.rs `impl From<&AppConfig> for SchedulerPolicy`. -/
def SchedulerPolicy.fromConfig (cfg : AppConfig) : SchedulerPolicy where
  max_consecutive_errors := max cfg.max_consecutive_errors 1
  quota_backoff_cap_minutes := max cfg.quota_poll_backoff_cap_minutes 1
  wake_quota_retry_window_minutes := max cfg.wake_quota_retry_window_minutes 1

/-- scheduler.rs `WakeConfirmOutcome`. -/
inductive WakeConfirmOutcome where
  | NotPending
  | Confirmed
  | FailedMissing
  | FailedNotAdvanced
  | AutoDisabled
deriving DecidableEq

/-- models.rs `SlotRuntimeStatus`. -/
structure SlotRuntimeStatus where
  slot : Nat
  name : String
  enabled : Bool
  timer_active : Bool
  percentage : Option Nat
  next_reset_hms : Option String
  last_error : Option String
  last_updated_epoch_ms : Option Int
  wake_consecutive_errors : Nat
  quota_consecutive_errors : Nat
  consecutive_errors : Nat
  wake_pending : Bool
  wake_reset_epoch_ms : Option Int
  wake_auto_disabled : Bool
  auto_disabled : Bool
deriving DecidableEq

/-- scheduler.rs `SlotSchedule` (`Instant`s as monotonic milliseconds). -/
structure SlotSchedule where
  next_reset_epoch_ms : Option Int
  last_times_marker : Option String
  last_reset_marker : Option Int
  last_interval_fire : Nat
  wake_retry_window_deadline : Option Nat
  wake_timeout_retry_fired : Bool
deriving DecidableEq

/-- scheduler.rs `has_enabled_slot` / the slot filter used by `start` and
`reload_if_running`: enabled with a non-empty trimmed API key. -/
def slot_active (sc : KeySlotConfig) : Bool :=
  sc.enabled && !sc.api_key.trim.isEmpty

/-- The interval-mode threshold `Duration::from_secs(m.max(1) * 60)` in
milliseconds (should_fire_wake line 1130). -/
def interval_threshold_ms (m : Nat) : Nat := max m 1 * 60000

/-- The after-reset target `next_reset + (m.max(1) as i64 * 60_000)`
(should_fire_wake line 1155 and update_schedule_markers line 1194). -/
def after_reset_target (next_reset : Int) (m : Nat) : Int :=
  next_reset + (max m 1 : Nat) * 60000

/-- scheduler.rs `should_fire_wake` (lines 1115-1168). -/
def should_fire_wake (slot_cfg : KeySlotConfig) (schedule : SlotSchedule)
    (now_mono : Nat) (date_str hm_str : String) (now_ms : Int) : Option String :=
  let any_enabled := slot_cfg.schedule_interval_enabled
    || slot_cfg.schedule_times_enabled
    || slot_cfg.schedule_after_reset_enabled
  if !any_enabled then none
  else if slot_cfg.schedule_interval_enabled
      && decide (now_mono - schedule.last_interval_fire
          ≥ interval_threshold_ms slot_cfg.schedule_interval_minutes) then
    some ("interval mode (" ++ toString slot_cfg.schedule_interval_minutes ++ " min elapsed)")
  else if slot_cfg.schedule_times_enabled
      && slot_cfg.schedule_times.contains hm_str
      && decide (schedule.last_times_marker ≠ some (date_str ++ "-" ++ hm_str)) then
    some ("times mode (matched " ++ hm_str ++ ")")
  else if slot_cfg.schedule_after_reset_enabled
      && (match schedule.next_reset_epoch_ms with
          | some next_reset =>
            decide (now_ms ≥ after_reset_target next_reset slot_cfg.schedule_after_reset_minutes)
              && decide (schedule.last_reset_marker ≠ some next_reset)
          | none => false) then
    some ("after-reset mode (reset + " ++ toString slot_cfg.schedule_after_reset_minutes ++ " min)")
  else
    none

/-- scheduler.rs `update_schedule_markers` (lines 1172-1201).  At every call
site `old_schedule` is a clone of `new_schedule` taken just before the
call. -/
def update_schedule_markers (slot_cfg : KeySlotConfig)
    (old_schedule new_schedule : SlotSchedule)
    (now_mono : Nat) (date_str hm_str : String) (now_ms : Int) : SlotSchedule :=
  let s1 :=
    if slot_cfg.schedule_interval_enabled then
      { new_schedule with last_interval_fire := now_mono }
    else new_schedule
  let s2 :=
    if slot_cfg.schedule_times_enabled && slot_cfg.schedule_times.contains hm_str then
      { s1 with last_times_marker := some (date_str ++ "-" ++ hm_str) }
    else s1
  if slot_cfg.schedule_after_reset_enabled then
    match old_schedule.next_reset_epoch_ms with
    | some next_reset =>
      if now_ms ≥ after_reset_target next_reset slot_cfg.schedule_after_reset_minutes then
        { s2 with last_reset_marker := some next_reset }
      else s2
    | none => s2
  else s2

/-- scheduler.rs `should_retry_quota_while_wake_pending` (lines 1203-1225). -/
def should_retry_quota_while_wake_pending (schedule : SlotSchedule)
    (slot : SlotRuntimeStatus) (now_mono : Nat) : Bool :=
  let wake_pending := slot.wake_pending && !slot.wake_auto_disabled
  if !wake_pending then false
  else
    match schedule.wake_retry_window_deadline with
    | some deadline => decide (now_mono < deadline)
    | none => false

/-- scheduler.rs `clear_wake_quota_retry_window` (lines 1227-1231). -/
def clear_wake_quota_retry_window (schedule : SlotSchedule) : SlotSchedule :=
  { schedule with wake_retry_window_deadline := none, wake_timeout_retry_fired := false }

/-- scheduler.rs `mark_wake_attempt` (lines 1286-1296). -/
def mark_wake_attempt (s : SlotRuntimeStatus) (reset_marker : Option Int) : SlotRuntimeStatus :=
  { s with wake_pending := true, wake_reset_epoch_ms := reset_marker }

/-- scheduler.rs `complete_wake_if_advanced` (lines 1298-1368). -/
def complete_wake_if_advanced (s : SlotRuntimeStatus)
    (next_reset_epoch_ms : Option Int) (max_consecutive_errors : Nat) :
    SlotRuntimeStatus × WakeConfirmOutcome :=
  if !s.wake_pending then (s, .NotPending)
  else
    match next_reset_epoch_ms with
    | none =>
      let s1 := { s with
        wake_consecutive_errors := satSucc32 s.wake_consecutive_errors,
        last_error := some "wake confirmation pending: quota reset timestamp is missing" }
      if s1.wake_consecutive_errors ≥ max_consecutive_errors then
        ({ s1 with
            wake_pending := false,
            wake_reset_epoch_ms := none,
            wake_auto_disabled := true,
            last_error := some ("wake disabled after "
              ++ toString s1.wake_consecutive_errors ++ " consecutive wake failures") },
          .AutoDisabled)
      else (s1, .FailedMissing)
    | some next_reset =>
      match s.wake_reset_epoch_ms with
      | none =>
        ({ s with
            wake_pending := false,
            wake_reset_epoch_ms := none,
            wake_consecutive_errors := 0,
            wake_auto_disabled := false,
            last_error := if s.quota_consecutive_errors = 0 then none else s.last_error },
          .Confirmed)
      | some previous =>
        if next_reset ≤ previous then
          let s1 := { s with
            wake_consecutive_errors := satSucc32 s.wake_consecutive_errors,
            last_error := some "wake confirmation failed: quota reset timestamp did not advance" }
          if s1.wake_consecutive_errors ≥ max_consecutive_errors then
            ({ s1 with
                wake_pending := false,
                wake_reset_epoch_ms := none,
                wake_auto_disabled := true,
                last_error := some ("wake disabled after "
                  ++ toString s1.wake_consecutive_errors ++ " consecutive wake failures") },
              .AutoDisabled)
          else (s1, .FailedNotAdvanced)
        else
          ({ s with
              wake_pending := false,
              wake_reset_epoch_ms := none,
              wake_consecutive_errors := 0,
              wake_auto_disabled := false,
              last_error := if s.quota_consecutive_errors = 0 then none else s.last_error },
            .Confirmed)

/-- scheduler.rs `record_wake_error` (lines 1370-1393); the returned counter
of the source is recoverable as `.wake_consecutive_errors` of the result. -/
def record_wake_error (s : SlotRuntimeStatus) (idx : Nat) (message : String)
    (max_consecutive_errors : Nat) : SlotRuntimeStatus :=
  let s1 := { s with
    slot := idx + 1,
    enabled := true,
    last_error := some ("wake request failed: " ++ message),
    wake_consecutive_errors := satSucc32 s.wake_consecutive_errors }
  if s1.wake_consecutive_errors ≥ max_consecutive_errors then
    { s1 with
      wake_auto_disabled := true,
      last_error := some ("wake disabled after "
        ++ toString s1.wake_consecutive_errors ++ " consecutive wake failures") }
  else s1

/-- scheduler.rs `record_quota_error` (lines 1395-1419). -/
def record_quota_error (s : SlotRuntimeStatus) (idx : Nat) (message : String)
    (max_consecutive_errors : Nat) : SlotRuntimeStatus :=
  let s1 := { s with
    slot := idx + 1,
    enabled := true,
    last_error := some ("quota request failed: " ++ message),
    quota_consecutive_errors := satSucc32 s.quota_consecutive_errors,
    consecutive_errors := satSucc32 s.quota_consecutive_errors }
  if s1.quota_consecutive_errors ≥ max_consecutive_errors then
    { s1 with
      auto_disabled := true,
      last_error := some ("quota polling disabled after "
        ++ toString s1.quota_consecutive_errors ++ " consecutive quota failures") }
  else s1

/-- scheduler.rs `clear_quota_error` (lines 1453-1463). -/
def clear_quota_error (s : SlotRuntimeStatus) : SlotRuntimeStatus :=
  { s with
    quota_consecutive_errors := 0,
    consecutive_errors := 0,
    auto_disabled := false,
    last_error := if s.wake_consecutive_errors = 0 then none else s.last_error }

/-- scheduler.rs `clear_wake_state` (lines 1465-1476). -/
def clear_wake_state (s : SlotRuntimeStatus) : SlotRuntimeStatus :=
  { s with
    wake_pending := false,
    wake_reset_epoch_ms := none,
    wake_consecutive_errors := 0,
    wake_auto_disabled := false,
    last_error := if s.quota_consecutive_errors = 0 then none else s.last_error }

/-- scheduler.rs `clear_slot_runtime` (lines 1421-1440). -/
def clear_slot_runtime (s : SlotRuntimeStatus) (idx : Nat) : SlotRuntimeStatus :=
  { s with
    slot := idx + 1,
    enabled := false,
    timer_active := false,
    name := "",
    percentage := none,
    next_reset_hms := none,
    last_error := none,
    last_updated_epoch_ms := none,
    consecutive_errors := 0,
    quota_consecutive_errors := 0,
    wake_consecutive_errors := 0,
    auto_disabled := false,
    wake_auto_disabled := false,
    wake_pending := false,
    wake_reset_epoch_ms := none }

/-- The per-slot assignment in scheduler.rs `reset_runtime` (lines 1489-1511). -/
def reset_runtime_slot (idx : Nat) : SlotRuntimeStatus where
  slot := idx + 1
  name := ""
  enabled := false
  timer_active := false
  percentage := none
  next_reset_hms := none
  last_error := none
  last_updated_epoch_ms := none
  wake_consecutive_errors := 0
  quota_consecutive_errors := 0
  consecutive_errors := 0
  wake_pending := false
  wake_reset_epoch_ms := none
  wake_auto_disabled := false
  auto_disabled := false

/-- Result of `is_wake_required`: the returned Bool, the runtime status
after the in-place update, and whether `fetch_quota` was invoked. -/
structure WakeRequiredResult where
  required : Bool
  slot : SlotRuntimeStatus
  network_called : Bool
deriving DecidableEq

/-- The fetch half of scheduler.rs `is_wake_required` (lines 1258-1283). -/
def is_wake_required_fetch (fetch : Except String QuotaSnapshot)
    (s : SlotRuntimeStatus) (now_ms : Int) : WakeRequiredResult :=
  match fetch with
  | .ok snapshot =>
    let s1 := { s with
      percentage := some snapshot.percentage,
      timer_active := snapshot.timer_active,
      next_reset_hms := snapshot.next_reset_hms,
      last_updated_epoch_ms := snapshot.next_reset_epoch_ms }
    { required :=
        match snapshot.next_reset_epoch_ms with
        | some next_reset_ms => decide (next_reset_ms ≤ now_ms)
        | none => true,
      slot := s1,
      network_called := true }
  | .error _ => { required := true, slot := s, network_called := true }

/-- scheduler.rs `is_wake_required` (lines 1233-1284); the remote call is
the `fetch` oracle, consulted only when the model reaches it. -/
def is_wake_required (fetch : Except String QuotaSnapshot)
    (s : SlotRuntimeStatus) (now_ms : Int) : WakeRequiredResult :=
  match s.last_updated_epoch_ms with
  | some next_reset_ms =>
    if next_reset_ms > now_ms then { required := false, slot := s, network_called := false }
    else is_wake_required_fetch fetch s now_ms
  | none => is_wake_required_fetch fetch s now_ms

/-- The quota-success runtime update of `quota_poller_task`
(lines 956-970): `clear_quota_error` followed by the field writes. -/
def quota_success_update (s : SlotRuntimeStatus) (idx : Nat) (cfg_name : String)
    (snapshot : QuotaSnapshot) : SlotRuntimeStatus :=
  { clear_quota_error s with
    slot := idx + 1,
    name := cfg_name,
    enabled := true,
    timer_active := snapshot.timer_active,
    percentage := some snapshot.percentage,
    next_reset_hms := snapshot.next_reset_hms,
    last_updated_epoch_ms := snapshot.next_reset_epoch_ms,
    auto_disabled := false,
    quota_consecutive_errors := 0,
    consecutive_errors := 0,
    last_error := if s.wake_consecutive_errors = 0 then none else s.last_error }

/-- The per-slot reset loop inside `SchedulerManager::start`
(lines 114-132): note `name` and `slot` are not touched there. -/
def start_reset_slot (s : SlotRuntimeStatus) : SlotRuntimeStatus :=
  { s with
    auto_disabled := false,
    wake_auto_disabled := false,
    enabled := false,
    last_error := none,
    consecutive_errors := 0,
    quota_consecutive_errors := 0,
    wake_consecutive_errors := 0,
    wake_pending := false,
    wake_reset_epoch_ms := none,
    timer_active := false,
    percentage := none,
    next_reset_hms := none,
    last_updated_epoch_ms := none }

/-- The indices for which `start` spawns a task pair
(lines 134-139): enumerate `config.slots`, keep the active ones. -/
def start_spawn_indices (cfg : AppConfig) : List Nat :=
  (List.range cfg.slots.length).filter fun idx =>
    match cfg.slots.get? idx with
    | some sc => slot_active sc
    | none => false

/-- `spawn_slot_task` writes the slot config's name into the runtime entry
of every spawned index (lines 238-243); other entries are untouched. -/
def apply_spawn_names (slots : List KeySlotConfig) (k : Nat) :
    List SlotRuntimeStatus → List SlotRuntimeStatus
  | [] => []
  | s :: rest =>
    (match slots.get? k with
     | some sc => if slot_active sc then { s with name := sc.name } else s
     | none => s) :: apply_spawn_names slots (k + 1) rest

/-- Observable outcome of `SchedulerManager::start` on the runtime status
array: the reset-then-named statuses, the spawned slot indices, and the
final tray broadcast (line 143). -/
structure StartResult where
  statuses : List SlotRuntimeStatus
  spawned : List Nat
  broadcast : Bool
deriving DecidableEq

/-- scheduler.rs `SchedulerManager::start` (lines 104-144), restricted to
its effect on the runtime status entries and the set of spawned slots. -/
def scheduler_start (cfg : AppConfig) (statuses : List SlotRuntimeStatus) : StartResult where
  statuses := apply_spawn_names cfg.slots 0 (statuses.map start_reset_slot)
  spawned := start_spawn_indices cfg
  broadcast := true

/-- The sleep computation of `quota_poller_task` (lines 1062-1086), in
minutes.  `quota_errors` is the counter value read back from the runtime
status after the fetch attempt was handled. -/
def poll_sleep_minutes (retry_quota_now wake_window_active : Bool)
    (quota_errors poll_interval_minutes cap_minutes : Nat) : Nat :=
  let consecutive_errors := if retry_quota_now || wake_window_active then 0 else quota_errors
  if consecutive_errors = 0 then
    if retry_quota_now || wake_window_active then 1 else max poll_interval_minutes 1
  else
    min (satMul64 (max poll_interval_minutes 1) (2 ^ min consecutive_errors 6)) cap_minutes

/-- Outcome of one failed-fetch iteration of the quota poller: the updated
slot status, whether the task breaks out of its loop, and the sleep it
would perform next (none when it breaks). -/
structure PollErrResult where
  slot : SlotRuntimeStatus
  stops : Bool
  sleep_minutes : Option Nat
deriving DecidableEq

/-- The `Err` branch of `quota_poller_task`'s fetch (lines 983-1051)
together with the subsequent sleep computation (lines 1062-1086).  In this
branch `wake_window_active` is still `false` (line 804). -/
def quota_poll_on_error (policy : SchedulerPolicy) (cfg : KeySlotConfig)
    (schedule : SlotSchedule) (s : SlotRuntimeStatus) (idx : Nat)
    (now_mono : Nat) (err : String) : PollErrResult :=
  let retry_quota_now := should_retry_quota_while_wake_pending schedule s now_mono
  if retry_quota_now then
    { slot := { s with
        last_error := some ("quota request failed during wake verification retry: " ++ err) },
      stops := false,
      sleep_minutes := some (poll_sleep_minutes true false 0
        cfg.poll_interval_minutes policy.quota_backoff_cap_minutes) }
  else
    let s1 := record_quota_error s idx err policy.max_consecutive_errors
    if s1.quota_consecutive_errors ≥ policy.max_consecutive_errors then
      { slot := { s1 with auto_disabled := true }, stops := true, sleep_minutes := none }
    else
      { slot := s1,
        stops := false,
        sleep_minutes := some (poll_sleep_minutes false false s1.quota_consecutive_errors
          cfg.poll_interval_minutes policy.quota_backoff_cap_minutes) }

/-- The auto-disable break checks at the top of `wake_scheduler_task`
(lines 361-396): the task breaks when either flag is set. -/
def wake_scheduler_breaks_on_disable (s : SlotRuntimeStatus) : Bool :=
  s.auto_disabled || s.wake_auto_disabled

/-- The auto-disable break check at the top of `quota_poller_task`
(lines 776-800): only `auto_disabled` is consulted. -/
def quota_poller_breaks_on_disable (s : SlotRuntimeStatus) : Bool :=
  s.auto_disabled

/-- Outcome of the decision part of one `wake_scheduler_task` iteration. -/
structure WakeTickResult where
  schedule : SlotSchedule
  slot : SlotRuntimeStatus
  sent : Bool
  send_ok : Bool
  polled_quota : Bool
  poll_now : Bool
  stops : Bool
deriving DecidableEq

/-- The decision body of one iteration of `wake_scheduler_task`
(lines 398-609), after the stop/disable checks.  `fetch` is the oracle for
the `fetch_quota` call inside `is_wake_required`; `send` is the oracle for
`send_wake_request`. -/
def wake_tick (policy : SchedulerPolicy) (cfg : KeySlotConfig)
    (schedule : SlotSchedule) (slot : SlotRuntimeStatus) (idx : Nat)
    (now_mono : Nat) (date_str hm_str : String) (now_ms : Int)
    (fetch : Except String QuotaSnapshot) (send : Except String Unit) : WakeTickResult :=
  let schedule_reason := should_fire_wake cfg schedule now_mono date_str hm_str now_ms
  let wake_pending := slot.wake_pending
  let should_retry_after_errors := decide (slot.wake_consecutive_errors > 0) && !slot.wake_pending
  let wake_window_active := should_retry_quota_while_wake_pending schedule slot now_mono
  let wake_retry_due := wake_pending && !wake_window_active && !schedule.wake_timeout_retry_fired
  if schedule_reason.isSome && wake_pending && !wake_retry_due then
    { schedule := update_schedule_markers cfg schedule schedule now_mono date_str hm_str now_ms,
      slot := slot, sent := false, send_ok := false,
      polled_quota := false, poll_now := false, stops := false }
  else if schedule_reason.isSome || should_retry_after_errors || wake_retry_due then
    let r := is_wake_required fetch slot now_ms
    if !r.required then
      let slot2 :=
        if should_retry_after_errors || wake_retry_due then clear_wake_state r.slot else r.slot
      let schedule2 :=
        if schedule_reason.isSome then
          update_schedule_markers cfg schedule schedule now_mono date_str hm_str now_ms
        else schedule
      { schedule := schedule2, slot := slot2, sent := false, send_ok := false,
        polled_quota := r.network_called, poll_now := false, stops := false }
    else
      match send with
      | .error err =>
        let slot2 := record_wake_error r.slot idx err policy.max_consecutive_errors
        { schedule := schedule, slot := slot2, sent := true, send_ok := false,
          polled_quota := r.network_called, poll_now := false,
          stops := decide (slot2.wake_consecutive_errors ≥ policy.max_consecutive_errors) }
      | .ok _ =>
        let pre_reset_marker := r.slot.last_updated_epoch_ms
        let s1 := update_schedule_markers cfg schedule schedule now_mono date_str hm_str now_ms
        let schedule2 :=
          if wake_retry_due then
            { s1 with wake_timeout_retry_fired := true, wake_retry_window_deadline := none }
          else
            { s1 with
              wake_retry_window_deadline :=
                some (now_mono + policy.wake_quota_retry_window_minutes * 60000),
              wake_timeout_retry_fired := false }
        { schedule := schedule2, slot := mark_wake_attempt r.slot pre_reset_marker,
          sent := true, send_ok := true, polled_quota := r.network_called,
          poll_now := true, stops := false }
  else
    { schedule := schedule, slot := slot, sent := false, send_ok := false,
      polled_quota := false, poll_now := false, stops := false }

/-- The invariant of claim C10: `wake_reset_epoch_ms` is `Some` only while
`wake_pending` is set. -/
def wake_marker_inv (s : SlotRuntimeStatus) : Prop :=
  s.wake_reset_epoch_ms.isSome → s.wake_pending = true

instance (s : SlotRuntimeStatus) : Decidable (wake_marker_inv s) := by
  unfold wake_marker_inv
  infer_instance

/-! Concrete fixtures used by witnesses and counterexamples. -/

/-- An enabled slot config with a key and no schedule mode enabled. -/
def base_cfg : KeySlotConfig where
  slot := 1
  name := "a"
  enabled := true
  api_key := "k"
  schedule_interval_enabled := false
  schedule_times_enabled := false
  schedule_after_reset_enabled := false
  schedule_interval_minutes := 60
  schedule_times := []
  schedule_after_reset_minutes := 1
  poll_interval_minutes := 30
  logging := false

/-- `base_cfg` with interval mode enabled (60 minutes). -/
def interval_cfg : KeySlotConfig :=
  { base_cfg with schedule_interval_enabled := true }

/-- The `SlotSchedule::default()` state at monotonic time 0. -/
def base_sched : SlotSchedule where
  next_reset_epoch_ms := none
  last_times_marker := none
  last_reset_marker := none
  last_interval_fire := 0
  wake_retry_window_deadline := none
  wake_timeout_retry_fired := false

/-- A schedule whose wake-confirmation retry window ends at monotonic 50. -/
def dl_sched : SlotSchedule :=
  { base_sched with wake_retry_window_deadline := some 50 }

/-- A generic healthy runtime entry. -/
def base_slot : SlotRuntimeStatus where
  slot := 1
  name := "a"
  enabled := true
  timer_active := false
  percentage := none
  next_reset_hms := none
  last_error := none
  last_updated_epoch_ms := none
  wake_consecutive_errors := 0
  quota_consecutive_errors := 0
  consecutive_errors := 0
  wake_pending := false
  wake_reset_epoch_ms := none
  wake_auto_disabled := false
  auto_disabled := false

/-- A pending wake whose send-time reset marker was 5 ms. -/
def c1_slot : SlotRuntimeStatus :=
  { base_slot with wake_pending := true, wake_reset_epoch_ms := some 5 }

/-- A slot with wake failures, no pending wake, and a cached reset time one
hour in the future of `now_ms = 0`. -/
def c6_slot : SlotRuntimeStatus :=
  { base_slot with wake_consecutive_errors := 2, last_updated_epoch_ms := some 3600000 }

/-- A pending wake with no cached reset time (forces a live pre-check). -/
def c3_slot : SlotRuntimeStatus :=
  { base_slot with wake_pending := true, wake_reset_epoch_ms := some 5 }

/-- A slot left pending with `wake_auto_disabled` set by a failed forced
retry that exhausted the wake error ceiling. -/
def c7_slot : SlotRuntimeStatus :=
  { base_slot with
    wake_pending := true, wake_reset_epoch_ms := some 5,
    wake_consecutive_errors := 10, wake_auto_disabled := true }

/-- The default global policy values. -/
def pol10 : SchedulerPolicy where
  max_consecutive_errors := 10
  quota_backoff_cap_minutes := 480
  wake_quota_retry_window_minutes := 15

/-- An app config whose single slot is disabled. -/
def c8_app : AppConfig where
  slots := [{ base_cfg with enabled := false }]
  wake_quota_retry_window_minutes := 15
  max_consecutive_errors := 10
  quota_poll_backoff_cap_minutes := 480

/-- A stale runtime entry carrying a name and quota data from an earlier run. -/
def c8_status : SlotRuntimeStatus :=
  { base_slot with name := "legacy", percentage := some 50 }

/-- First forced-retry tick of the C3 scenario: the retry window has
elapsed (deadline 50, now 100), the pre-check fetch fails (fail-open) and
the wake send itself fails. -/
def c3_tick1 : WakeTickResult :=
  wake_tick pol10 base_cfg dl_sched c3_slot 0 100 "2026-01-01" "00:00" 0
    (.error "f") (.error "s")

/-- Second tick of the C3 scenario, one minute later, from the state the
first tick produced; the send fails again. -/
def c3_tick2 : WakeTickResult :=
  wake_tick pol10 base_cfg c3_tick1.schedule c3_tick1.slot 0 200 "2026-01-01" "00:00" 0
    (.error "f") (.error "s")

/-! Theorems. -/

theorem satSucc32_eq_of_lt {n : Nat} (h : n < u32_max) : satSucc32 n = n + 1 := by
  unfold satSucc32
  exact Nat.min_eq_left h

/-- C1: wake confirmation (`complete_wake_if_advanced`, evaluated under
`wake_pending = true` with `previous = wake_reset_epoch_ms` and
`observed` the snapshot's reset time): absent `observed` fails and
increments the wake counter keeping the wake pending; absent `previous`
confirms on any present `observed`; `observed ≤ previous` fails and
increments keeping the wake pending; `observed > previous` confirms,
clearing pending, zeroing the counter and clearing `wake_auto_disabled`;
any failing branch whose counter reaches the ceiling sets
`wake_auto_disabled` and clears pending. -/
theorem wake_confirmation_c1 (s : SlotRuntimeStatus) (observed : Option Int) (M : Nat)
    (hp : s.wake_pending = true) (hd : s.wake_consecutive_errors < u32_max) :
    (observed = none →
      if s.wake_consecutive_errors + 1 ≥ M then
        (complete_wake_if_advanced s observed M).1.wake_auto_disabled = true ∧
        (complete_wake_if_advanced s observed M).1.wake_pending = false ∧
        (complete_wake_if_advanced s observed M).2 = .AutoDisabled
      else
        (complete_wake_if_advanced s observed M).1.wake_consecutive_errors
            = s.wake_consecutive_errors + 1 ∧
        (complete_wake_if_advanced s observed M).1.wake_pending = true ∧
        (complete_wake_if_advanced s observed M).2 = .FailedMissing) ∧
    (∀ o, observed = some o → s.wake_reset_epoch_ms = none →
      (complete_wake_if_advanced s observed M).1.wake_pending = false ∧
      (complete_wake_if_advanced s observed M).1.wake_consecutive_errors = 0 ∧
      (complete_wake_if_advanced s observed M).1.wake_auto_disabled = false ∧
      (complete_wake_if_advanced s observed M).2 = .Confirmed) ∧
    (∀ o p, observed = some o → s.wake_reset_epoch_ms = some p → o ≤ p →
      if s.wake_consecutive_errors + 1 ≥ M then
        (complete_wake_if_advanced s observed M).1.wake_auto_disabled = true ∧
        (complete_wake_if_advanced s observed M).1.wake_pending = false ∧
        (complete_wake_if_advanced s observed M).2 = .AutoDisabled
      else
        (complete_wake_if_advanced s observed M).1.wake_consecutive_errors
            = s.wake_consecutive_errors + 1 ∧
        (complete_wake_if_advanced s observed M).1.wake_pending = true ∧
        (complete_wake_if_advanced s observed M).2 = .FailedNotAdvanced) ∧
    (∀ o p, observed = some o → s.wake_reset_epoch_ms = some p → p < o →
      (complete_wake_if_advanced s observed M).1.wake_pending = false ∧
      (complete_wake_if_advanced s observed M).1.wake_consecutive_errors = 0 ∧
      (complete_wake_if_advanced s observed M).1.wake_auto_disabled = false ∧
      (complete_wake_if_advanced s observed M).2 = .Confirmed) := by
  have hsat := satSucc32_eq_of_lt hd
  refine ⟨?_, ?_, ?_, ?_⟩
  · rintro rfl
    by_cases hM : s.wake_consecutive_errors + 1 ≥ M
    · simp [complete_wake_if_advanced, hp, hsat, hM]
    · simp [complete_wake_if_advanced, hp, hsat, hM]
  · rintro o rfl hprev
    simp [complete_wake_if_advanced, hp, hprev]
  · rintro o p rfl hprev hle
    by_cases hM : s.wake_consecutive_errors + 1 ≥ M
    · simp [complete_wake_if_advanced, hp, hprev, hsat, hM, hle]
    · simp [complete_wake_if_advanced, hp, hprev, hsat, hM, hle]
  · rintro o p rfl hprev hlt
    simp [complete_wake_if_advanced, hp, hprev, not_le.mpr hlt]

/-- Witness for C1 at a concrete pending slot: a non-advanced reset time
(4 ≤ 5) increments the counter and keeps the wake pending. -/
theorem wake_confirmation_c1_witness :
    (complete_wake_if_advanced c1_slot (some 4) 10).1.wake_consecutive_errors = 1 ∧
    (complete_wake_if_advanced c1_slot (some 4) 10).1.wake_pending = true := by
  have h := (wake_confirmation_c1 c1_slot (some 4) 10 rfl (by decide)).2.2.1
    4 5 rfl rfl (by decide)
  rw [if_neg (by decide)] at h
  exact ⟨h.1, h.2.1⟩

/-- C2: on a quota-fetch failure, behaviour splits on the wake-confirmation
retry window.  Inside the window: the counter is untouched, no auto-disable
change, the next sleep is 1 minute and the task keeps running.  Outside:
the counter is incremented; if it reaches the ceiling the slot is
auto-disabled and the poller stops (no sleep is scheduled); otherwise the
next sleep is `poll_interval_minutes * 2^min(errors,6)` capped at the
backoff cap. -/
theorem quota_error_split_c2 (app : AppConfig) (cfg : KeySlotConfig)
    (schedule : SlotSchedule) (s : SlotRuntimeStatus) (idx now_mono : Nat) (err : String)
    (hpoll : 1 ≤ cfg.poll_interval_minutes)
    (hcap : app.quota_poll_backoff_cap_minutes ≤ u64_max)
    (hcnt : s.quota_consecutive_errors < u32_max) :
    (should_retry_quota_while_wake_pending schedule s now_mono = true →
      (quota_poll_on_error (SchedulerPolicy.fromConfig app) cfg schedule s idx now_mono err).slot.quota_consecutive_errors
          = s.quota_consecutive_errors ∧
      (quota_poll_on_error (SchedulerPolicy.fromConfig app) cfg schedule s idx now_mono err).slot.auto_disabled
          = s.auto_disabled ∧
      (quota_poll_on_error (SchedulerPolicy.fromConfig app) cfg schedule s idx now_mono err).sleep_minutes = some 1 ∧
      (quota_poll_on_error (SchedulerPolicy.fromConfig app) cfg schedule s idx now_mono err).stops = false) ∧
    (should_retry_quota_while_wake_pending schedule s now_mono = false →
      (quota_poll_on_error (SchedulerPolicy.fromConfig app) cfg schedule s idx now_mono err).slot.quota_consecutive_errors
          = s.quota_consecutive_errors + 1 ∧
      (s.quota_consecutive_errors + 1 ≥ (SchedulerPolicy.fromConfig app).max_consecutive_errors →
        (quota_poll_on_error (SchedulerPolicy.fromConfig app) cfg schedule s idx now_mono err).slot.auto_disabled = true ∧
        (quota_poll_on_error (SchedulerPolicy.fromConfig app) cfg schedule s idx now_mono err).stops = true ∧
        (quota_poll_on_error (SchedulerPolicy.fromConfig app) cfg schedule s idx now_mono err).sleep_minutes = none) ∧
      (s.quota_consecutive_errors + 1 < (SchedulerPolicy.fromConfig app).max_consecutive_errors →
        (quota_poll_on_error (SchedulerPolicy.fromConfig app) cfg schedule s idx now_mono err).stops = false ∧
        (quota_poll_on_error (SchedulerPolicy.fromConfig app) cfg schedule s idx now_mono err).sleep_minutes
          = some (min (cfg.poll_interval_minutes * 2 ^ min (s.quota_consecutive_errors + 1) 6)
              (SchedulerPolicy.fromConfig app).quota_backoff_cap_minutes))) := by
  have hsat := satSucc32_eq_of_lt hcnt
  have hq : ∀ M, (record_quota_error s idx err M).quota_consecutive_errors
      = s.quota_consecutive_errors + 1 := by
    intro M
    simp only [record_quota_error]
    split <;> simp [hsat]
  constructor
  · intro hw
    simp [quota_poll_on_error, hw, poll_sleep_minutes]
  · intro hw
    have hcapge : (SchedulerPolicy.fromConfig app).quota_backoff_cap_minutes ≤ u64_max := by
      simp only [SchedulerPolicy.fromConfig]
      exact max_le hcap (by unfold u64_max; omega)
    refine ⟨?_, ?_, ?_⟩
    · simp only [quota_poll_on_error, hw, Bool.false_eq_true, if_false]
      split
      · simp [hq]
      · simp [hq]
    · intro hM
      have hge : (record_quota_error s idx err
          (SchedulerPolicy.fromConfig app).max_consecutive_errors).quota_consecutive_errors
            ≥ (SchedulerPolicy.fromConfig app).max_consecutive_errors := by
        rw [hq]
        exact hM
      simp only [quota_poll_on_error, hw, Bool.false_eq_true, if_false, if_pos hge]
      exact ⟨trivial, trivial, trivial⟩
    · intro hM
      have hlt : ¬ (record_quota_error s idx err
          (SchedulerPolicy.fromConfig app).max_consecutive_errors).quota_consecutive_errors
            ≥ (SchedulerPolicy.fromConfig app).max_consecutive_errors := by
        rw [hq]
        omega
      have hpos : ¬ s.quota_consecutive_errors + 1 = 0 := by omega
      simp only [quota_poll_on_error, hw, Bool.false_eq_true, if_false, if_neg hlt]
      refine ⟨trivial, ?_⟩
      simp only [hq, poll_sleep_minutes, satMul64, Bool.or_self, Bool.false_eq_true,
        if_false, hpos, Nat.max_eq_left hpoll]
      rw [min_assoc, min_eq_right hcapge]


/-- Witness for C2 at a concrete state outside the retry window: the
counter is incremented and the poller keeps running. -/
theorem quota_error_split_c2_witness :
    (quota_poll_on_error (SchedulerPolicy.fromConfig c8_app) base_cfg base_sched
      base_slot 0 0 "boom").slot.quota_consecutive_errors = 0 + 1 ∧
    (quota_poll_on_error (SchedulerPolicy.fromConfig c8_app) base_cfg base_sched
      base_slot 0 0 "boom").stops = false := by
  have h := (quota_error_split_c2 c8_app base_cfg base_sched base_slot 0 0 "boom"
    (by decide) (by decide) (by decide)).2 (by decide)
  exact ⟨h.1, (h.2.2 (by decide)).1⟩

/-- C4: `is_wake_required` returns false with no network call when the
cached `last_updated_epoch_ms` is strictly in the future; otherwise it
performs the live fetch, on success updates the runtime entry from the
snapshot and returns true iff the fetched `next_reset_epoch_ms` is absent
or at most now, and on fetch failure returns true (fail-open). -/
theorem is_wake_required_c4 (fetch : Except String QuotaSnapshot)
    (s : SlotRuntimeStatus) (now_ms : Int) :
    (∀ t, s.last_updated_epoch_ms = some t → now_ms < t →
      is_wake_required fetch s now_ms
        = { required := false, slot := s, network_called := false }) ∧
    ((∀ t, s.last_updated_epoch_ms = some t → t ≤ now_ms) →
      (is_wake_required fetch s now_ms).network_called = true ∧
      (∀ snap, fetch = .ok snap →
        (is_wake_required fetch s now_ms).slot
          = { s with
              percentage := some snap.percentage,
              timer_active := snap.timer_active,
              next_reset_hms := snap.next_reset_hms,
              last_updated_epoch_ms := snap.next_reset_epoch_ms } ∧
        ((is_wake_required fetch s now_ms).required = true ↔
          snap.next_reset_epoch_ms = none ∨
            ∃ t, snap.next_reset_epoch_ms = some t ∧ t ≤ now_ms)) ∧
      (∀ e, fetch = .error e →
        (is_wake_required fetch s now_ms).required = true ∧
        (is_wake_required fetch s now_ms).slot = s)) := by
  constructor
  · intro t ht hfut
    simp [is_wake_required, ht, hfut]
  · intro hpast
    have hfetch : is_wake_required fetch s now_ms = is_wake_required_fetch fetch s now_ms := by
      cases hc : s.last_updated_epoch_ms with
      | none => simp [is_wake_required, hc]
      | some t =>
        have := hpast t hc
        simp [is_wake_required, hc, not_lt.mpr this]
    rw [hfetch]
    refine ⟨?_, ?_, ?_⟩
    · cases fetch <;> simp [is_wake_required_fetch]
    · rintro snap rfl
      refine ⟨rfl, ?_⟩
      cases hn : snap.next_reset_epoch_ms with
      | none => simp [is_wake_required_fetch, hn]
      | some t => simp [is_wake_required_fetch, hn]
    · rintro e rfl
      exact ⟨rfl, rfl⟩

/-- Witness for C4: with a cached reset time one hour in the future of
`now_ms = 0` the pre-check answers false without any network call, even
when the fetch oracle would fail. -/
theorem is_wake_required_c4_witness :
    is_wake_required (.error "down") c6_slot 0
      = { required := false, slot := c6_slot, network_called := false } := by
  exact (is_wake_required_c4 (.error "down") c6_slot 0).1 3600000 rfl (by decide)


theorem update_markers_interval_fire (cfg : KeySlotConfig) (old s : SlotSchedule)
    (a : Nat) (b c : String) (d : Int) :
    (update_schedule_markers cfg old s a b c d).last_interval_fire
      = if cfg.schedule_interval_enabled then a else s.last_interval_fire := by
  unfold update_schedule_markers
  rcases old.next_reset_epoch_ms with _ | r <;> dsimp only <;> split_ifs <;> rfl

theorem update_markers_times_marker (cfg : KeySlotConfig) (old s : SlotSchedule)
    (a : Nat) (b c : String) (d : Int) :
    (update_schedule_markers cfg old s a b c d).last_times_marker
      = if cfg.schedule_times_enabled && cfg.schedule_times.contains c then
          some (b ++ "-" ++ c)
        else s.last_times_marker := by
  unfold update_schedule_markers
  rcases old.next_reset_epoch_ms with _ | r <;> dsimp only <;> split_ifs <;> rfl

theorem update_markers_reset_marker (cfg : KeySlotConfig) (old s : SlotSchedule)
    (a : Nat) (b c : String) (d : Int) :
    (update_schedule_markers cfg old s a b c d).last_reset_marker
      = match old.next_reset_epoch_ms with
        | some r =>
          if cfg.schedule_after_reset_enabled
              ∧ d ≥ after_reset_target r cfg.schedule_after_reset_minutes then
            some r
          else s.last_reset_marker
        | none => s.last_reset_marker := by
  unfold update_schedule_markers
  rcases old.next_reset_epoch_ms with _ | r <;> dsimp only <;> split_ifs <;> simp_all

theorem update_markers_other_fields (cfg : KeySlotConfig) (old s : SlotSchedule)
    (a : Nat) (b c : String) (d : Int) :
    (update_schedule_markers cfg old s a b c d).next_reset_epoch_ms = s.next_reset_epoch_ms ∧
    (update_schedule_markers cfg old s a b c d).wake_retry_window_deadline
      = s.wake_retry_window_deadline ∧
    (update_schedule_markers cfg old s a b c d).wake_timeout_retry_fired
      = s.wake_timeout_retry_fired := by
  unfold update_schedule_markers
  rcases old.next_reset_epoch_ms with _ | r <;> dsimp only <;> split_ifs <;> exact ⟨rfl, rfl, rfl⟩

/-- C5 counterexample: with interval mode enabled (60 min) and only 1000 ms
elapsed since the last interval fire, `should_fire_wake` reports that no
mode is currently matching, yet `update_schedule_markers` still advances
the interval marker from 0 to 1000 — contradicting the claim that the
marker of a mode that is not currently matching is never advanced. -/
theorem markers_c5_cex :
    should_fire_wake interval_cfg base_sched 1000 "2026-01-01" "00:00" 0 = none ∧
    base_sched.last_interval_fire = 0 ∧
    (update_schedule_markers interval_cfg base_sched base_sched 1000
      "2026-01-01" "00:00" 0).last_interval_fire = 1000 := by
  decide

/-- C5 amended: `update_schedule_markers` re-arms the interval marker
whenever interval mode is merely enabled (matching or not); the times and
after-reset markers advance exactly when their mode is enabled and
currently matching; markers of disabled or non-matching modes (other than
the interval one) and all remaining `SlotSchedule` fields are unchanged. -/
theorem markers_c5_amended (cfg : KeySlotConfig) (old s : SlotSchedule)
    (now_mono : Nat) (date_str hm_str : String) (now_ms : Int) :
    (cfg.schedule_interval_enabled = true →
      (update_schedule_markers cfg old s now_mono date_str hm_str now_ms).last_interval_fire
        = now_mono) ∧
    (cfg.schedule_interval_enabled = false →
      (update_schedule_markers cfg old s now_mono date_str hm_str now_ms).last_interval_fire
        = s.last_interval_fire) ∧
    ((cfg.schedule_times_enabled && cfg.schedule_times.contains hm_str) = true →
      (update_schedule_markers cfg old s now_mono date_str hm_str now_ms).last_times_marker
        = some (date_str ++ "-" ++ hm_str)) ∧
    ((cfg.schedule_times_enabled && cfg.schedule_times.contains hm_str) = false →
      (update_schedule_markers cfg old s now_mono date_str hm_str now_ms).last_times_marker
        = s.last_times_marker) ∧
    (∀ r, cfg.schedule_after_reset_enabled = true → old.next_reset_epoch_ms = some r →
      after_reset_target r cfg.schedule_after_reset_minutes ≤ now_ms →
      (update_schedule_markers cfg old s now_mono date_str hm_str now_ms).last_reset_marker
        = some r) ∧
    (cfg.schedule_after_reset_enabled = false →
      (update_schedule_markers cfg old s now_mono date_str hm_str now_ms).last_reset_marker
        = s.last_reset_marker) ∧
    (∀ r, old.next_reset_epoch_ms = some r →
      now_ms < after_reset_target r cfg.schedule_after_reset_minutes →
      (update_schedule_markers cfg old s now_mono date_str hm_str now_ms).last_reset_marker
        = s.last_reset_marker) ∧
    (old.next_reset_epoch_ms = none →
      (update_schedule_markers cfg old s now_mono date_str hm_str now_ms).last_reset_marker
        = s.last_reset_marker) ∧
    (update_schedule_markers cfg old s now_mono date_str hm_str now_ms).next_reset_epoch_ms
      = s.next_reset_epoch_ms ∧
    (update_schedule_markers cfg old s now_mono date_str hm_str now_ms).wake_retry_window_deadline
      = s.wake_retry_window_deadline ∧
    (update_schedule_markers cfg old s now_mono date_str hm_str now_ms).wake_timeout_retry_fired
      = s.wake_timeout_retry_fired := by
  have h1 := update_markers_interval_fire cfg old s now_mono date_str hm_str now_ms
  have h2 := update_markers_times_marker cfg old s now_mono date_str hm_str now_ms
  have h3 := update_markers_reset_marker cfg old s now_mono date_str hm_str now_ms
  have h4 := update_markers_other_fields cfg old s now_mono date_str hm_str now_ms
  refine ⟨?_, ?_, ?_, ?_, ?_, ?_, ?_, ?_, h4.1, h4.2.1, h4.2.2⟩
  · intro h
    rw [h1, if_pos h]
  · intro h
    rw [h1, if_neg (by simp [h])]
  · intro h
    rw [h2, if_pos h]
  · intro h
    rw [h2, if_neg (by rw [h]; exact Bool.false_ne_true)]
  · intro r he hr ht
    rw [h3, hr]
    simp only [ge_iff_le]
    rw [if_pos ⟨he, ht⟩]
  · intro h
    rw [h3]
    rcases hr : old.next_reset_epoch_ms with _ | r
    · rfl
    · simp [h]
  · intro r hr ht
    rw [h3, hr]
    simp only [ge_iff_le]
    rw [if_neg (by intro hc; exact absurd hc.2 (not_le.mpr ht))]
  · intro h
    rw [h3, h]

/-- Witness for C5 amended, at the counterexample configuration: interval
enabled and not elapsed still re-arms the marker, while the disabled
after-reset marker is untouched. -/
theorem markers_c5_amended_witness :
    (update_schedule_markers interval_cfg base_sched base_sched 1000
      "2026-01-01" "00:00" 0).last_interval_fire = 1000 ∧
    (update_schedule_markers interval_cfg base_sched base_sched 1000
      "2026-01-01" "00:00" 0).last_reset_marker = base_sched.last_reset_marker := by
  have h := markers_c5_amended interval_cfg base_sched base_sched 1000 "2026-01-01" "00:00" 0
  exact ⟨h.1 (by decide), (h.2.2.2.2.2.1 : _) (by decide)⟩


theorem record_wake_error_counters (s : SlotRuntimeStatus) (idx : Nat) (msg : String) (M : Nat) :
    (record_wake_error s idx msg M).wake_consecutive_errors
      = satSucc32 s.wake_consecutive_errors ∧
    (record_wake_error s idx msg M).quota_consecutive_errors
      = s.quota_consecutive_errors := by
  unfold record_wake_error
  constructor <;> (dsimp only; split <;> rfl)

theorem record_quota_error_counters (s : SlotRuntimeStatus) (idx : Nat) (msg : String) (M : Nat) :
    (record_quota_error s idx msg M).quota_consecutive_errors
      = satSucc32 s.quota_consecutive_errors ∧
    (record_quota_error s idx msg M).wake_consecutive_errors
      = s.wake_consecutive_errors := by
  unfold record_quota_error
  constructor <;> (dsimp only; split <;> rfl)

theorem complete_wake_counters (s : SlotRuntimeStatus) (o : Option Int) (M : Nat) :
    (complete_wake_if_advanced s o M).1.quota_consecutive_errors
      = s.quota_consecutive_errors ∧
    ((complete_wake_if_advanced s o M).2 = .Confirmed ∧
        (complete_wake_if_advanced s o M).1.wake_consecutive_errors = 0 ∨
      (complete_wake_if_advanced s o M).1.wake_consecutive_errors
        = satSucc32 s.wake_consecutive_errors ∨
      (complete_wake_if_advanced s o M).1.wake_consecutive_errors
        = s.wake_consecutive_errors) := by
  unfold complete_wake_if_advanced
  cases hwp : s.wake_pending <;>
    cases ho : o <;>
    cases hwr : s.wake_reset_epoch_ms <;>
    simp_all <;>
    split_ifs <;>
    simp_all

/-- C6 counterexample: a slot with `wake_consecutive_errors = 2`, no
pending wake and a cached reset time in the future takes the
retry-after-errors path of the wake tick; `is_wake_required` answers false
from the cache (no quota fetch at all) and `clear_wake_state` resets the
wake counter to 0 — with no wake send, no wake confirmation and no
successful quota fetch in the tick, contradicting the claim that the
counters are reset only by a corresponding success. -/
theorem counters_c6_cex :
    c6_slot.wake_consecutive_errors = 2 ∧
    (wake_tick pol10 base_cfg base_sched c6_slot 0 0 "2026-01-01" "00:00" 0
      (.error "x") (.error "y")).slot.wake_consecutive_errors = 0 ∧
    (wake_tick pol10 base_cfg base_sched c6_slot 0 0 "2026-01-01" "00:00" 0
      (.error "x") (.error "y")).sent = false ∧
    (wake_tick pol10 base_cfg base_sched c6_slot 0 0 "2026-01-01" "00:00" 0
      (.error "x") (.error "y")).polled_quota = false := by
  decide

/-- C6 amended: failures never decrease either counter — the record
functions increment their own counter and leave the other unchanged, and a
failed confirmation never lowers the wake counter; `quota_consecutive_errors`
is reset to 0 only by the quota-success path (`clear_quota_error` /
`quota_success_update`); `wake_consecutive_errors` is reset to 0 by a
confirmed wake, and additionally by `clear_wake_state` when a retried or
timed-out wake is found to be no longer required — a reset not tied to a
confirmed wake. -/
theorem counters_c6_amended (s : SlotRuntimeStatus) (idx M : Nat) (msg cfg_name : String)
    (o : Option Int) (snap : QuotaSnapshot)
    (hq : s.quota_consecutive_errors < u32_max)
    (hw : s.wake_consecutive_errors < u32_max) :
    ((record_quota_error s idx msg M).quota_consecutive_errors
        = s.quota_consecutive_errors + 1 ∧
      (record_quota_error s idx msg M).wake_consecutive_errors
        = s.wake_consecutive_errors) ∧
    ((record_wake_error s idx msg M).wake_consecutive_errors
        = s.wake_consecutive_errors + 1 ∧
      (record_wake_error s idx msg M).quota_consecutive_errors
        = s.quota_consecutive_errors) ∧
    ((complete_wake_if_advanced s o M).1.quota_consecutive_errors
        = s.quota_consecutive_errors ∧
      ((complete_wake_if_advanced s o M).2 = .Confirmed ∧
          (complete_wake_if_advanced s o M).1.wake_consecutive_errors = 0 ∨
        (complete_wake_if_advanced s o M).1.wake_consecutive_errors
          ≥ s.wake_consecutive_errors)) ∧
    ((clear_quota_error s).quota_consecutive_errors = 0 ∧
      (clear_quota_error s).wake_consecutive_errors = s.wake_consecutive_errors) ∧
    ((quota_success_update s idx cfg_name snap).quota_consecutive_errors = 0 ∧
      (quota_success_update s idx cfg_name snap).wake_consecutive_errors
        = s.wake_consecutive_errors) ∧
    ((clear_wake_state s).wake_consecutive_errors = 0 ∧
      (clear_wake_state s).quota_consecutive_errors = s.quota_consecutive_errors) := by
  have hsq := satSucc32_eq_of_lt hq
  have hsw := satSucc32_eq_of_lt hw
  refine ⟨?_, ?_, ?_, ⟨rfl, rfl⟩, ⟨rfl, rfl⟩, ⟨rfl, rfl⟩⟩
  · have h := record_quota_error_counters s idx msg M
    rw [hsq] at h
    exact h
  · have h := record_wake_error_counters s idx msg M
    rw [hsw] at h
    exact h
  · have h := complete_wake_counters s o M
    refine ⟨h.1, ?_⟩
    rcases h.2 with h0 | h1 | h2
    · exact Or.inl h0
    · right
      rw [h1, hsw]
      omega
    · right
      rw [h2]

/-- Witness for C6 amended at a concrete healthy slot. -/
theorem counters_c6_amended_witness :
    (record_quota_error base_slot 0 "boom" 10).quota_consecutive_errors = 0 + 1 ∧
    (clear_wake_state base_slot).wake_consecutive_errors = 0 := by
  have h := counters_c6_amended base_slot 0 10 "boom" "a" none
    { percentage := 1, timer_active := true, next_reset_hms := none, next_reset_epoch_ms := none }
    (by decide) (by decide)
  exact ⟨h.1.1, h.2.2.2.2.2.1⟩


/-- C7 counterexample: a slot left pending with `wake_auto_disabled = true`
(reachable when a failed forced retry exhausts the wake ceiling, since
`record_wake_error` does not clear `wake_pending`).  The quota poller's
break check ignores `wake_auto_disabled`, so polling continues, and the
next successful fetch with an advanced reset time confirms the still
pending wake and resets `wake_auto_disabled` to false — the flag is not
one-way and scheduling actions continue. -/
theorem auto_disable_c7_cex :
    c7_slot.wake_auto_disabled = true ∧
    c7_slot.wake_pending = true ∧
    quota_poller_breaks_on_disable c7_slot = false ∧
    (complete_wake_if_advanced c7_slot (some 10) 10).2 = .Confirmed ∧
    (complete_wake_if_advanced c7_slot (some 10) 10).1.wake_auto_disabled = false := by
  decide

/-- C7 amended: `auto_disabled` is one-way within a run — it stops both
tasks at their next loop check and no operation still reachable for the
slot resets it (`clear_quota_error`, which does clear it, runs only after
a successful poll, impossible once the poller stopped).  By contrast
`wake_auto_disabled` stops only the wake scheduler: the quota poller's
break check ignores it, and a later confirmation of a still-pending wake
clears it. -/
theorem auto_disable_c7_amended (s : SlotRuntimeStatus) (o : Option Int)
    (idx M : Nat) (msg : String) :
    quota_poller_breaks_on_disable s = s.auto_disabled ∧
    wake_scheduler_breaks_on_disable s = (s.auto_disabled || s.wake_auto_disabled) ∧
    (s.auto_disabled = true →
      (record_quota_error s idx msg M).auto_disabled = true ∧
      (record_wake_error s idx msg M).auto_disabled = true ∧
      (complete_wake_if_advanced s o M).1.auto_disabled = true ∧
      (clear_wake_state s).auto_disabled = true ∧
      (mark_wake_attempt s o).auto_disabled = true) := by
  refine ⟨rfl, rfl, ?_⟩
  intro h
  refine ⟨?_, ?_, ?_, h, h⟩
  · unfold record_quota_error
    dsimp only
    split
    · rfl
    · exact h
  · unfold record_wake_error
    dsimp only
    split <;> exact h
  · unfold complete_wake_if_advanced
    cases hwp : s.wake_pending <;>
      cases ho : o <;>
      cases hwr : s.wake_reset_epoch_ms <;>
      simp_all <;>
      split_ifs <;>
      simp_all

/-- Witness for C7 amended at a concrete auto-disabled slot. -/
theorem auto_disable_c7_amended_witness :
    (record_quota_error { base_slot with auto_disabled := true } 0 "boom" 10).auto_disabled
      = true ∧
    quota_poller_breaks_on_disable { base_slot with auto_disabled := true }
      = ({ base_slot with auto_disabled := true } : SlotRuntimeStatus).auto_disabled := by
  have h := auto_disable_c7_amended { base_slot with auto_disabled := true } none 0 10 "boom"
  exact ⟨(h.2.2 rfl).1, h.1⟩


theorem apply_spawn_names_get (slots : List KeySlotConfig)
    (l : List SlotRuntimeStatus) (k i : Nat) :
    (apply_spawn_names slots k l).get? i = (l.get? i).map fun s =>
      match slots.get? (k + i) with
      | some sc => if slot_active sc then { s with name := sc.name } else s
      | none => s := by
  induction l generalizing k i with
  | nil => simp [apply_spawn_names]
  | cons hd tl ih =>
    cases i with
    | zero => simp [apply_spawn_names]
    | succ n =>
      have hk : k + (n + 1) = (k + 1) + n := by omega
      simp only [apply_spawn_names, List.get?_cons_succ, hk]
      exact ih (k + 1) n

theorem start_spawn_indices_mem (cfg : AppConfig) (i : Nat) :
    i ∈ start_spawn_indices cfg ↔
      ∃ sc, cfg.slots.get? i = some sc ∧ slot_active sc = true := by
  unfold start_spawn_indices
  rw [List.mem_filter]
  constructor
  · rintro ⟨hmem, hp⟩
    cases hg : cfg.slots.get? i with
    | none =>
      rw [hg] at hp
      exact absurd hp (by simp)
    | some sc =>
      rw [hg] at hp
      exact ⟨sc, rfl, hp⟩
  · rintro ⟨sc, hg, ha⟩
    refine ⟨List.mem_range.mpr ?_, ?_⟩
    · obtain ⟨hlt, _⟩ := List.get?_eq_some.mp hg
      exact hlt
    · rw [hg]
      exact ha

/-- C8 counterexample: `start`'s reset loop does not touch the `name`
field — a stale name from a previous run survives in an entry whose slot
is not spawned, while `reset_runtime` shows the reset value would be the
empty string.  The claim that all fields of every runtime entry are reset
is therefore false. -/
theorem start_c8_cex :
    ((scheduler_start c8_app [c8_status]).statuses.get? 0).map (fun r => r.name)
      = some "legacy" ∧
    ((scheduler_start c8_app [c8_status]).statuses.get? 0).map (fun r => r.percentage)
      = some none ∧
    (reset_runtime_slot 0).name = "" := by
  decide

/-- C8 amended: `start` resets the scheduling fields (enabled flag, timer,
quota data, error message, all three counters, wake state and both
auto-disable flags) of every runtime entry, leaving `slot` untouched and
`name` either overwritten from the slot config (for spawned slots) or left
as it was; it spawns a task pair exactly for the slots whose config is
enabled with a non-empty trimmed api_key, and broadcasts the resulting
status to the tray. -/
theorem start_c8_amended (cfg : AppConfig) (statuses : List SlotRuntimeStatus) :
    (scheduler_start cfg statuses).broadcast = true ∧
    (∀ i, i ∈ (scheduler_start cfg statuses).spawned ↔
      ∃ sc, cfg.slots.get? i = some sc ∧ slot_active sc = true) ∧
    (∀ i s₀, statuses.get? i = some s₀ → ∃ s₁,
      (scheduler_start cfg statuses).statuses.get? i = some s₁ ∧
      s₁.enabled = false ∧ s₁.timer_active = false ∧ s₁.percentage = none ∧
      s₁.next_reset_hms = none ∧ s₁.last_error = none ∧
      s₁.last_updated_epoch_ms = none ∧ s₁.consecutive_errors = 0 ∧
      s₁.quota_consecutive_errors = 0 ∧ s₁.wake_consecutive_errors = 0 ∧
      s₁.wake_pending = false ∧ s₁.wake_reset_epoch_ms = none ∧
      s₁.auto_disabled = false ∧ s₁.wake_auto_disabled = false ∧
      s₁.slot = s₀.slot ∧
      ((∃ sc, cfg.slots.get? i = some sc ∧ slot_active sc = true ∧ s₁.name = sc.name) ∨
        s₁.name = s₀.name)) := by
  refine ⟨rfl, fun i => start_spawn_indices_mem cfg i, ?_⟩
  intro i s₀ h
  have hmap : (statuses.map start_reset_slot).get? i = some (start_reset_slot s₀) := by
    rw [List.get?_map, h]
    rfl
  have hg := apply_spawn_names_get cfg.slots (statuses.map start_reset_slot) 0 i
  rw [hmap] at hg
  simp only [Nat.zero_add, Option.map_some] at hg
  have hst : (scheduler_start cfg statuses).statuses
      = apply_spawn_names cfg.slots 0 (statuses.map start_reset_slot) := rfl
  rw [hst, hg]
  cases hsc : cfg.slots.get? i with
  | none =>
    simp only [Option.map, hsc]
    exact ⟨start_reset_slot s₀, rfl, rfl, rfl, rfl, rfl, rfl, rfl, rfl, rfl, rfl, rfl,
      rfl, rfl, rfl, rfl, Or.inr rfl⟩
  | some sc =>
    by_cases ha : slot_active sc = true
    · simp only [Option.map, hsc, if_pos ha]
      exact ⟨{ start_reset_slot s₀ with name := sc.name }, rfl, rfl, rfl, rfl, rfl, rfl,
        rfl, rfl, rfl, rfl, rfl, rfl, rfl, rfl, rfl, Or.inl ⟨sc, rfl, ha, rfl⟩⟩
    · simp only [Option.map, hsc, if_neg ha]
      exact ⟨start_reset_slot s₀, rfl, rfl, rfl, rfl, rfl, rfl, rfl, rfl, rfl, rfl, rfl,
        rfl, rfl, rfl, rfl, Or.inr rfl⟩

/-- Witness for C8 amended at the concrete single-slot configuration. -/
theorem start_c8_amended_witness :
    ∃ s₁, (scheduler_start c8_app [c8_status]).statuses.get? 0 = some s₁ ∧
      s₁.enabled = false := by
  obtain ⟨s₁, h1, h2, _⟩ := (start_c8_amended c8_app [c8_status]).2.2 0 c8_status rfl
  exact ⟨s₁, h1, h2⟩


/-- C9: the derived policy clamps `max_consecutive_errors`,
`quota_poll_backoff_cap_minutes` and `wake_quota_retry_window_minutes` to
at least 1, the poller sleep is always at least 1 minute, and the
interval-mode threshold and after-reset offset are at least one minute, so
no sleep interval or interval-mode threshold is ever zero, for every
`AppConfig` (including zero-valued policy fields). -/
theorem clamping_c9 (app : AppConfig) :
    1 ≤ (SchedulerPolicy.fromConfig app).max_consecutive_errors ∧
    1 ≤ (SchedulerPolicy.fromConfig app).quota_backoff_cap_minutes ∧
    1 ≤ (SchedulerPolicy.fromConfig app).wake_quota_retry_window_minutes ∧
    (∀ retry window errs poll_interval,
      1 ≤ poll_sleep_minutes retry window errs poll_interval
            (SchedulerPolicy.fromConfig app).quota_backoff_cap_minutes) ∧
    (∀ m, 60000 ≤ interval_threshold_ms m) ∧
    (∀ r m, r + 60000 ≤ after_reset_target r m) := by
  have hcap : 1 ≤ (SchedulerPolicy.fromConfig app).quota_backoff_cap_minutes :=
    Nat.le_max_right _ 1
  refine ⟨Nat.le_max_right _ 1, hcap, Nat.le_max_right _ 1, ?_, ?_, ?_⟩
  · intro retry window errs poll_interval
    unfold poll_sleep_minutes satMul64
    dsimp only
    split_ifs <;>
      first
      | exact le_refl 1
      | exact Nat.le_max_right _ 1
      | exact le_min (le_min (Nat.succ_le_of_lt (Nat.mul_pos
          (Nat.lt_of_lt_of_le Nat.zero_lt_one (Nat.le_max_right _ 1))
          (pow_pos (by decide) _))) (by decide)) hcap
  · intro m
    unfold interval_threshold_ms
    have h : 1 ≤ max m 1 := Nat.le_max_right m 1
    nlinarith
  · intro r m
    unfold after_reset_target
    have h : (1 : Int) ≤ ((max m 1 : Nat) : Int) := by exact_mod_cast Nat.le_max_right m 1
    nlinarith

/-- C10: every runtime-status mutation preserves the invariant that
`wake_reset_epoch_ms` is `Some` only while `wake_pending` is true, and
`mark_wake_attempt` — the only function that stores a marker — sets
`wake_pending := true` together with it. -/
theorem wake_marker_c10 (s : SlotRuntimeStatus) (m o : Option Int) (idx M : Nat)
    (msg cfg_name : String) (snap : QuotaSnapshot)
    (fetch : Except String QuotaSnapshot) (now_ms : Int)
    (h : wake_marker_inv s) :
    (mark_wake_attempt s m).wake_pending = true ∧
    wake_marker_inv (mark_wake_attempt s m) ∧
    wake_marker_inv (complete_wake_if_advanced s o M).1 ∧
    wake_marker_inv (record_wake_error s idx msg M) ∧
    wake_marker_inv (record_quota_error s idx msg M) ∧
    wake_marker_inv (clear_quota_error s) ∧
    wake_marker_inv (clear_wake_state s) ∧
    wake_marker_inv (clear_slot_runtime s idx) ∧
    wake_marker_inv (start_reset_slot s) ∧
    wake_marker_inv (reset_runtime_slot idx) ∧
    wake_marker_inv (quota_success_update s idx cfg_name snap) ∧
    wake_marker_inv (is_wake_required fetch s now_ms).slot := by
  refine ⟨rfl, fun _ => rfl, ?_, ?_, ?_, ?_, ?_, ?_, ?_, ?_, ?_, ?_⟩
  · unfold wake_marker_inv at *
    unfold complete_wake_if_advanced
    cases hwp : s.wake_pending <;>
      cases ho : o <;>
      cases hwr : s.wake_reset_epoch_ms <;>
      simp_all <;>
      split_ifs <;>
      simp_all
  · unfold wake_marker_inv at *
    unfold record_wake_error
    dsimp only
    split <;> simpa using h
  · unfold wake_marker_inv at *
    unfold record_quota_error
    dsimp only
    split <;> simpa using h
  · simpa [wake_marker_inv, clear_quota_error] using h
  · simp [wake_marker_inv, clear_wake_state]
  · simp [wake_marker_inv, clear_slot_runtime]
  · simp [wake_marker_inv, start_reset_slot]
  · simp [wake_marker_inv, reset_runtime_slot]
  · simpa [wake_marker_inv, quota_success_update, clear_quota_error] using h
  · unfold wake_marker_inv at *
    unfold is_wake_required is_wake_required_fetch
    cases hc : s.last_updated_epoch_ms <;> cases fetch <;> simp_all <;> split_ifs <;> simp_all

/-- Witness for C10 at a concrete pending slot satisfying the invariant. -/
theorem wake_marker_c10_witness :
    (mark_wake_attempt c1_slot (some 7)).wake_pending = true ∧
    wake_marker_inv (clear_wake_state c1_slot) := by
  have h := wake_marker_c10 c1_slot (some 7) (some 9) 0 10 "boom" "a"
    { percentage := 1, timer_active := true, next_reset_hms := none, next_reset_epoch_ms := none }
    (.error "down") 0 (by decide)
  exact ⟨h.1, h.2.2.2.2.2.2.1⟩


/-- C3 counterexample: with a pending wake whose retry window has elapsed
(deadline 50, now 100) and `wake_timeout_retry_fired = false`, a forced
re-send is attempted and fails; the latch is NOT set (it latches only on a
successful send), the wake stays pending, and the next tick performs a
second forced re-send within the same pending episode — contradicting
both "wake_timeout_retry_fired latches to true" on the forced re-send and
"at most one forced retry wake occurs per pending episode". -/
theorem wake_pending_c3_cex :
    c3_slot.wake_pending = true ∧
    dl_sched.wake_timeout_retry_fired = false ∧
    c3_tick1.sent = true ∧
    c3_tick1.slot.wake_pending = true ∧
    c3_tick1.schedule.wake_timeout_retry_fired = false ∧
    c3_tick2.sent = true := by
  decide

/-- C3 amended: while a wake is pending, schedule-mode triggers are
suppressed (markers still advance, nothing else changes) whenever the
retry window is still active or the forced-retry latch is already set; a
wake is sent at all only when the window is inactive and the latch unset;
and the latch is set by a successful forced re-send — a failed forced
re-send leaves the latch unset, so further forced attempts may follow
(bounded only by the wake error ceiling), and at most one successful
forced retry occurs per pending episode. -/
theorem wake_pending_c3_amended (policy : SchedulerPolicy) (cfg : KeySlotConfig)
    (schedule : SlotSchedule) (slot : SlotRuntimeStatus) (idx now_mono : Nat)
    (date_str hm_str : String) (now_ms : Int)
    (fetch : Except String QuotaSnapshot) (send : Except String Unit)
    (hp : slot.wake_pending = true) :
    (schedule.wake_timeout_retry_fired = true →
      (wake_tick policy cfg schedule slot idx now_mono date_str hm_str now_ms fetch send).sent
        = false) ∧
    ((wake_tick policy cfg schedule slot idx now_mono date_str hm_str now_ms fetch send).sent
        = true →
      should_retry_quota_while_wake_pending schedule slot now_mono = false ∧
      schedule.wake_timeout_retry_fired = false) ∧
    ((wake_tick policy cfg schedule slot idx now_mono date_str hm_str now_ms fetch send).sent
        = true →
      (wake_tick policy cfg schedule slot idx now_mono date_str hm_str now_ms fetch send).send_ok
        = true →
      (wake_tick policy cfg schedule slot idx now_mono date_str hm_str now_ms
        fetch send).schedule.wake_timeout_retry_fired = true) ∧
    ((should_fire_wake cfg schedule now_mono date_str hm_str now_ms).isSome = true →
      (should_retry_quota_while_wake_pending schedule slot now_mono = true ∨
        schedule.wake_timeout_retry_fired = true) →
      (wake_tick policy cfg schedule slot idx now_mono date_str hm_str now_ms fetch send).sent
          = false ∧
      (wake_tick policy cfg schedule slot idx now_mono date_str hm_str now_ms fetch send).slot
          = slot ∧
      (wake_tick policy cfg schedule slot idx now_mono date_str hm_str now_ms
          fetch send).schedule
        = update_schedule_markers cfg schedule schedule now_mono date_str hm_str now_ms) := by
  cases hf : schedule.wake_timeout_retry_fired <;>
    cases hw : should_retry_quota_while_wake_pending schedule slot now_mono <;>
    cases hr : should_fire_wake cfg schedule now_mono date_str hm_str now_ms <;>
    cases hq : (is_wake_required fetch slot now_ms).required <;>
    cases send <;>
    simp_all [wake_tick]

/-- Witness for C3 amended at the concrete forced-retry scenario. -/
theorem wake_pending_c3_amended_witness :
    should_retry_quota_while_wake_pending dl_sched c3_slot 100 = false ∧
    dl_sched.wake_timeout_retry_fired = false := by
  have h := (wake_pending_c3_amended pol10 base_cfg dl_sched c3_slot 0 100
    "2026-01-01" "00:00" 0 (.error "f") (.error "s") rfl).2.1
  exact h (by decide)

end GlmTray
